import Mathlib

/-!
Verification of the swlwi repository: Flyde node declarations
(`src/swlwi/scrape.flyde.ts`, `src/swlwi/rag.flyde.ts`) and the visual
flow graph `src/Scrape.flyde`.

The repository ships only typed node stubs (each `run` body is
`() => { return; }`) together with a graph wiring the scrape nodes.
We embed the graph data and the stub nodes directly from the source.
Behavioural properties of the pipeline stages (fetch routing, dedup
filtering, chunking, retrieval, content extraction) are not implemented
in this repository, so those stages are modelled from the spec, as
marked on each definition.
-/

namespace Swlwi

/-- A port reference in the flow graph: instance id plus pin id. -/
structure Pin where
  insId : String
  pinId : String
deriving DecidableEq, Repr

/-- A connection of the flow graph, from an output pin to an input pin. -/
structure Connection where
  src : Pin
  dst : Pin
deriving DecidableEq, Repr

/-- The value carried by an `InlineValue` macro instance. -/
inductive InlineVal where
  | str (s : String)
  | num (n : Nat)
deriving DecidableEq, Repr

/-- A node instance of the flow graph: its instance id, the node it
instantiates, and the inline value when it is an `InlineValue` macro. -/
structure NodeInstance where
  id : String
  nodeId : String
  macroValue : Option InlineVal
deriving DecidableEq, Repr

/-- The instances of `src/Scrape.flyde` (`node.instances`), in file order. -/
def scrapeInstances : List NodeInstance :=
  [ ⟨"ListIssues-9c04bul", "ListIssues", none⟩,
    ⟨"x8lrqs61rkelmrrs0al73b4p", "InlineValue__x8lrqs61rkelmrrs0al73b4p",
      some (.str "https://softwareleadweekly.com/issues/")⟩,
    ⟨"ExtractArticles-3x24bo9", "ExtractArticles", none⟩,
    ⟨"SaveArticle-nb04b5g", "SaveArticle", none⟩,
    ⟨"m0yqmomtd8040yzj14sjec3e", "InlineValue__m0yqmomtd8040yzj14sjec3e",
      some (.str "./index")⟩,
    ⟨"ptybffn2cj3ehxd5w7ny2mno", "InlineValue__ptybffn2cj3ehxd5w7ny2mno",
      some (.num 50)⟩,
    ⟨"FetchArticle-qe04bea", "FetchArticle", none⟩,
    ⟨"ExtractArticleContent-el14bpd", "ExtractArticleContent", none⟩,
    ⟨"FetchArticleWithJavaScript-g024b0t", "FetchArticleWithJavaScript", none⟩,
    ⟨"SkipExistingIssues-if04b5c", "SkipExistingIssues", none⟩ ]

/-- The connections of `src/Scrape.flyde` (`node.connections`), in file order. -/
def scrapeConnections : List Connection :=
  [ ⟨⟨"x8lrqs61rkelmrrs0al73b4p", "value"⟩, ⟨"ListIssues-9c04bul", "url"⟩⟩,
    ⟨⟨"m0yqmomtd8040yzj14sjec3e", "value"⟩, ⟨"SaveArticle-nb04b5g", "path"⟩⟩,
    ⟨⟨"ptybffn2cj3ehxd5w7ny2mno", "value"⟩, ⟨"ListIssues-9c04bul", "limit"⟩⟩,
    ⟨⟨"FetchArticle-qe04bea", "complete"⟩, ⟨"ExtractArticleContent-el14bpd", "article"⟩⟩,
    ⟨⟨"ExtractArticleContent-el14bpd", "article"⟩, ⟨"SaveArticle-nb04b5g", "article"⟩⟩,
    ⟨⟨"FetchArticle-qe04bea", "needs_javascript"⟩, ⟨"FetchArticleWithJavaScript-g024b0t", "article"⟩⟩,
    ⟨⟨"FetchArticleWithJavaScript-g024b0t", "article"⟩, ⟨"ExtractArticleContent-el14bpd", "article"⟩⟩,
    ⟨⟨"ExtractArticles-3x24bo9", "article"⟩, ⟨"FetchArticle-qe04bea", "article"⟩⟩,
    ⟨⟨"ListIssues-9c04bul", "issue"⟩, ⟨"SkipExistingIssues-if04b5c", "issue"⟩⟩,
    ⟨⟨"SkipExistingIssues-if04b5c", "issue"⟩, ⟨"ExtractArticles-3x24bo9", "issue"⟩⟩,
    ⟨⟨"m0yqmomtd8040yzj14sjec3e", "value"⟩, ⟨"SkipExistingIssues-if04b5c", "path"⟩⟩ ]

/-- A value flowing on a port; opaque to the declarations, kept abstract
as a string payload. -/
def PortValue := String

/-- A Flyde `CodeNode` declaration as shipped in this repository: an id,
the declared input and output port names, and the `run` function.  A `run`
invocation receives the input bindings and returns the list of
`(output port, value)` emissions it performs. -/
structure CodeNode where
  id : String
  inputs : List String
  outputs : List String
  run : List (String × PortValue) → List (String × PortValue)

/-- `src/swlwi/scrape.flyde.ts`: `ListIssues` (body `() => { return; }`). -/
def ListIssues : CodeNode :=
  ⟨"ListIssues", ["url", "limit"], ["issue"], fun _ => []⟩

/-- `src/swlwi/scrape.flyde.ts`: `SkipExistingIssues` (body `() => { return; }`). -/
def SkipExistingIssues : CodeNode :=
  ⟨"SkipExistingIssues", ["issue", "path", "force_all"], ["issue"], fun _ => []⟩

/-- `src/swlwi/scrape.flyde.ts`: `ExtractArticles` (body `() => { return; }`). -/
def ExtractArticles : CodeNode :=
  ⟨"ExtractArticles", ["issue"], ["article"], fun _ => []⟩

/-- `src/swlwi/scrape.flyde.ts`: `FetchArticle` (body `() => { return; }`). -/
def FetchArticle : CodeNode :=
  ⟨"FetchArticle", ["article"], ["complete", "needs_javascript"], fun _ => []⟩

/-- `src/swlwi/scrape.flyde.ts`: `FetchArticleWithJavaScript`
(body `() => { return; }`). -/
def FetchArticleWithJavaScript : CodeNode :=
  ⟨"FetchArticleWithJavaScript", ["article"], ["article"], fun _ => []⟩

/-- `src/swlwi/scrape.flyde.ts`: `ExtractArticleContent`
(body `() => { return; }`). -/
def ExtractArticleContent : CodeNode :=
  ⟨"ExtractArticleContent", ["article"], ["article"], fun _ => []⟩

/-- `src/swlwi/scrape.flyde.ts`: `SaveArticle` (body `() => { return; }`). -/
def SaveArticle : CodeNode :=
  ⟨"SaveArticle", ["article", "path"], [], fun _ => []⟩

/-- `src/swlwi/rag.flyde.ts`: `ListArticles` (body `() => { return; }`). -/
def ListArticles : CodeNode :=
  ⟨"ListArticles", ["path"], ["article_path"], fun _ => []⟩

/-- `src/swlwi/rag.flyde.ts`: `DocumentLoader` (body `() => { return; }`). -/
def DocumentLoader : CodeNode :=
  ⟨"DocumentLoader", ["path"], ["document"], fun _ => []⟩

/-- `src/swlwi/rag.flyde.ts`: `DocumentSplitter` (body `() => { return; }`). -/
def DocumentSplitter : CodeNode :=
  ⟨"DocumentSplitter", ["document", "chunk_size"], ["documents"], fun _ => []⟩

/-- `src/swlwi/rag.flyde.ts`: `VectorStore` (body `() => { return; }`). -/
def VectorStore : CodeNode :=
  ⟨"VectorStore", ["documents", "path"], [], fun _ => []⟩

/-- `src/swlwi/rag.flyde.ts`: `Retriever` (body `() => { return; }`). -/
def Retriever : CodeNode :=
  ⟨"Retriever", ["query", "path"], ["context"], fun _ => []⟩

/-- `src/swlwi/rag.flyde.ts`: `OllamaChat` (body `() => { return; }`). -/
def OllamaChat : CodeNode :=
  ⟨"OllamaChat", ["query", "context"], ["response"], fun _ => []⟩

/-- `src/swlwi/rag.flyde.ts`: `OpenAIChat` (body `() => { return; }`). -/
def OpenAIChat : CodeNode :=
  ⟨"OpenAIChat", ["query", "context"], ["response"], fun _ => []⟩

/-- All node declarations exported by `scrape.flyde.ts` and `rag.flyde.ts`,
in source order. -/
def allNodes : List CodeNode :=
  [ ListIssues, SkipExistingIssues, ExtractArticles, FetchArticle,
    FetchArticleWithJavaScript, ExtractArticleContent, SaveArticle,
    ListArticles, DocumentLoader, DocumentSplitter, VectorStore,
    Retriever, OllamaChat, OpenAIChat ]

end Swlwi

open Swlwi

/-- C2: in the Scrape.flyde graph, FetchArticle's `complete` output feeds
ExtractArticleContent's `article` input, its `needs_javascript` output feeds
FetchArticleWithJavaScript's `article` input, and FetchArticleWithJavaScript's
`article` output also feeds ExtractArticleContent's `article` input, so both
fetch paths converge on the same content-extraction stage. -/
theorem scrape_fetch_paths_converge :
    (⟨⟨"FetchArticle-qe04bea", "complete"⟩,
      ⟨"ExtractArticleContent-el14bpd", "article"⟩⟩ : Connection) ∈ scrapeConnections ∧
    (⟨⟨"FetchArticle-qe04bea", "needs_javascript"⟩,
      ⟨"FetchArticleWithJavaScript-g024b0t", "article"⟩⟩ : Connection) ∈ scrapeConnections ∧
    (⟨⟨"FetchArticleWithJavaScript-g024b0t", "article"⟩,
      ⟨"ExtractArticleContent-el14bpd", "article"⟩⟩ : Connection) ∈ scrapeConnections ∧
    (⟨⟨"ExtractArticleContent-el14bpd", "article"⟩,
      ⟨"SaveArticle-nb04b5g", "article"⟩⟩ : Connection) ∈ scrapeConnections := by
  refine ⟨?_, ?_, ?_, ?_⟩ <;> simp [scrapeConnections]

/-- C9: the instance `m0yqmomtd8040yzj14sjec3e` is an InlineValue holding the
string "./index", and it is the unique source wired into both
SkipExistingIssues' `path` input and SaveArticle's `path` input, so the dedup
check reads the same store location that SaveArticle writes. -/
theorem scrape_shared_index_path :
    (⟨"m0yqmomtd8040yzj14sjec3e", "InlineValue__m0yqmomtd8040yzj14sjec3e",
      some (.str "./index")⟩ : NodeInstance) ∈ scrapeInstances ∧
    scrapeConnections.filter
        (fun c => decide (c.dst = ⟨"SkipExistingIssues-if04b5c", "path"⟩)) =
      [⟨⟨"m0yqmomtd8040yzj14sjec3e", "value"⟩, ⟨"SkipExistingIssues-if04b5c", "path"⟩⟩] ∧
    scrapeConnections.filter
        (fun c => decide (c.dst = ⟨"SaveArticle-nb04b5g", "path"⟩)) =
      [⟨⟨"m0yqmomtd8040yzj14sjec3e", "value"⟩, ⟨"SaveArticle-nb04b5g", "path"⟩⟩] := by
  refine ⟨?_, ?_, ?_⟩
  · simp [scrapeInstances]
  · decide
  · decide

/-- C10: no connection of the Scrape.flyde graph targets the `force_all`
input of the SkipExistingIssues instance; the only inputs of that instance
with an incoming connection are `issue` and `path`. -/
theorem scrape_force_all_unwired :
    (scrapeConnections.filter
        (fun c => decide (c.dst.insId = "SkipExistingIssues-if04b5c"))).map
      (fun c => c.dst.pinId) = ["issue", "path"] ∧
    scrapeConnections.all
      (fun c => decide (c.dst ≠ ⟨"SkipExistingIssues-if04b5c", "force_all"⟩)) = true := by
  exact ⟨by decide, by decide⟩

/-- C8: every declared node's `run` function has an empty body: invoked on
any input bindings it emits no value on any output port (and, being pure
`fun _ => []`, performs no state change). -/
theorem all_runs_empty (n : CodeNode) (hn : n ∈ allNodes)
    (inp : List (String × PortValue)) : n.run inp = [] := by
  fin_cases hn <;> rfl

/-- Witness for C8 at the `ListIssues` node on a concrete input binding. -/
theorem all_runs_empty_witness :
    Swlwi.ListIssues ∈ allNodes ∧
      Swlwi.ListIssues.run [("url", "https://softwareleadweekly.com/issues/")] = [] :=
  ⟨by simp [allNodes], all_runs_empty Swlwi.ListIssues (by simp [allNodes])
    [("url", "https://softwareleadweekly.com/issues/")]⟩

namespace Swlwi.Model

/-- Modelled from the spec: an Issue record (identity = canonical URL,
plus title metadata); the repository only declares the `issue` ports. -/
structure Issue where
  url : String
  title : String
deriving DecidableEq, Repr

/-- Modelled from the spec: an Article record, identity = canonical URL,
progressively enriched with HTML and Markdown as it flows through the
pipeline; the repository only declares the `article` ports. -/
structure Article where
  url : String
  title : String
  summary : String
  html : Option String
  markdown : Option String
deriving DecidableEq, Repr

/-- Modelled from the spec: skip one `>`-terminated HTML tag, returning the
text after the closing `>`. -/
def dropTag : List Char → List Char
  | [] => []
  | c :: rest => if c = '>' then rest else dropTag rest

theorem dropTag_length_le (l : List Char) : (dropTag l).length ≤ l.length := by
  induction l with
  | nil => simp [dropTag]
  | cons c rest ih =>
    by_cases h : c = '>' <;> simp [dropTag, h] <;> omega

/-- Modelled from the spec: the "main content" of an HTML page, obtained by
stripping markup tags (the content-isolation heuristic left open in the
spec, instantiated as tag removal). -/
def stripTags : List Char → List Char
  | [] => []
  | c :: rest =>
    if c = '<' then stripTags (dropTag rest) else c :: stripTags rest
termination_by l => l.length
decreasing_by
  · exact Nat.lt_succ_of_le (dropTag_length_le rest)
  · exact Nat.lt_succ_of_le (Nat.le_refl rest.length)

/-- Modelled from the spec: the content heuristic of `FetchArticle` —
"usable HTML (detected via content heuristics, e.g. non-empty main content
region)". -/
def contentUsable (html : String) : Bool :=
  !(stripTags html.toList).isEmpty

/-- Modelled from the spec: `FetchArticle`'s behaviour, missing from this
repository (the shipped `run` body is empty).  Given an article and its
fetched HTML, it routes to `complete` when the plain fetch yields usable
HTML and to `needs_javascript` otherwise, emitting the article on exactly
that port. -/
def fetchArticleRun (a : Article) (fetchedHtml : String) :
    List (String × Article) :=
  if contentUsable fetchedHtml then
    [("complete", { a with html := some fetchedHtml })]
  else
    [("needs_javascript", a)]

/-- Modelled from the spec: `SkipExistingIssues`' behaviour, missing from
this repository.  The dedup store is the set of issue URLs already
recorded as processed at `path`; the issue is emitted unless it is in the
store and `force_all` is false. -/
def skipExistingIssuesRun (issue : Issue) (store : List String)
    (force_all : Bool) : List Issue :=
  if force_all then [issue]
  else if store.contains issue.url then [] else [issue]

/-- Modelled from the spec: `ListIssues`' behaviour, missing from this
repository.  The fetched index page parses to a list of issues in page
order; the node emits them in that order, stopping after `limit` issues,
where a limit of 0 or an unset limit imposes no bound. -/
def listIssuesRun (page : List Issue) (limit : Option Nat) : List Issue :=
  match limit with
  | none => page
  | some 0 => page
  | some n => page.take n

end Swlwi.Model

open Swlwi.Model

/-- C1: for every article and every fetched HTML, the `FetchArticle` model
emits exactly one value, on exactly one of its two outputs `complete` and
`needs_javascript` — never both and never neither. -/
theorem fetchArticle_exclusive_routing (a : Article) (h : String) :
    (fetchArticleRun a h).map Prod.fst = ["complete"] ∨
      (fetchArticleRun a h).map Prod.fst = ["needs_javascript"] := by
  unfold fetchArticleRun
  by_cases hc : contentUsable h = true
  · left; simp [hc]
  · right; simp [hc]

/-- C3: for every issue, store state and `force_all` flag, the
`SkipExistingIssues` model emits the issue unless the store contains a
prior record for it and `force_all` is false (in which case it is
dropped); with `force_all` true it is always passed through. -/
theorem skipExistingIssues_dedup (issue : Issue) (store : List String)
    (force_all : Bool) :
    (skipExistingIssuesRun issue store force_all = [] ↔
      force_all = false ∧ store.contains issue.url = true) ∧
    (skipExistingIssuesRun issue store force_all = [] ∨
      skipExistingIssuesRun issue store force_all = [issue]) ∧
    (force_all = true → skipExistingIssuesRun issue store force_all = [issue]) := by
  unfold skipExistingIssuesRun
  cases force_all with
  | false =>
    by_cases hs : store.contains issue.url = true
    · simp [hs]
      exact Classical.em _
    · simp [hs]
      exact Classical.em _
  | true => simp

/-- C4: for every parsed index page and every limit, the `ListIssues` model
emits a prefix of the page (hence in page order), emits at most `n` issues
when the limit is a positive `n`, and imposes no bound when the limit is 0
or unset. -/
theorem listIssues_limit (page : List Issue) (limit : Option Nat) :
    (∃ rest, listIssuesRun page limit ++ rest = page) ∧
    (∀ n, limit = some n → 0 < n → (listIssuesRun page limit).length ≤ n) ∧
    ((limit = none ∨ limit = some 0) → listIssuesRun page limit = page) := by
  refine ⟨?_, ?_, ?_⟩
  · cases limit with
    | none => exact ⟨[], by simp [listIssuesRun]⟩
    | some n =>
      cases n with
      | zero => exact ⟨[], by simp [listIssuesRun]⟩
      | succ m =>
        exact ⟨page.drop (m + 1), by simp [listIssuesRun, List.take_append_drop]⟩
  · intro n hn hpos
    subst hn
    cases n with
    | zero => omega
    | succ m => simp [listIssuesRun]
  · intro hl
    rcases hl with h | h <;> subst h <;> simp [listIssuesRun]

namespace Swlwi.Model

/-- Modelled from the spec: HTML-to-Markdown conversion used by
`ExtractArticleContent`, missing from this repository — isolate the main
content by stripping markup tags. -/
def htmlToMarkdown (html : String) : String :=
  String.mk (stripTags html.toList)

/-- Modelled from the spec: `ExtractArticleContent`'s behaviour, missing
from this repository.  It attaches to the article the Markdown derived
from its HTML, leaving the other fields (including the HTML) unchanged. -/
def extractArticleContentRun (a : Article) : Article :=
  { a with markdown := a.html.map htmlToMarkdown }

/-- Modelled from the spec: `DocumentSplitter`'s chunking, missing from
this repository — split the document text into consecutive segments of at
most `chunk_size` characters ("last chunk may be shorter"); each chunk
takes the next character and up to `chunk_size - 1` more. -/
def splitChunks (chunk_size : Nat) : List Char → List (List Char)
  | [] => []
  | c :: rest =>
    (c :: rest.take (chunk_size - 1)) ::
      splitChunks chunk_size (rest.drop (chunk_size - 1))
termination_by l => l.length
decreasing_by
  simp only [List.length_cons, List.length_drop]
  omega

theorem splitChunks_join (chunk_size : Nat) (text : List Char) :
    (splitChunks chunk_size text).flatten = text := by
  induction text using splitChunks.induct chunk_size with
  | case1 => simp [splitChunks]
  | case2 c rest ih =>
    rw [splitChunks]
    simp only [List.flatten_cons, List.cons_append]
    rw [ih, List.take_append_drop]

theorem splitChunks_length_le (chunk_size : Nat) (hcs : 0 < chunk_size)
    (text : List Char) :
    ∀ chunk ∈ splitChunks chunk_size text, chunk.length ≤ chunk_size := by
  induction text using splitChunks.induct chunk_size with
  | case1 => simp [splitChunks]
  | case2 c rest ih =>
    intro chunk hchunk
    rw [splitChunks] at hchunk
    rcases List.mem_cons.mp hchunk with h | h
    · subst h
      simp only [List.length_cons]
      have := List.length_take_le (chunk_size - 1) rest
      omega
    · exact ih chunk h

/-- Modelled from the spec: a chunk stored in the vector index — its text
plus the provenance path of its source document. -/
structure StoredChunk where
  text : String
  sourcePath : String
deriving DecidableEq, Repr

/-- Modelled from the spec: relevance score of a chunk for a query —
nearest-neighbour search instantiated as word overlap between query and
chunk text. -/
def score (query : String) (chunk : StoredChunk) : Nat :=
  ((chunk.text.splitOn " ").filter
    (fun w => (query.splitOn " ").contains w)).length

/-- Modelled from the spec: `Retriever`'s behaviour, missing from this
repository.  The vector index at `path` is a list of stored chunks; the
retriever ranks them by relevance to the query, keeps the top `k`, and
joins their texts as the context text. -/
def retrieverRun (query : String) (index : List StoredChunk) (k : Nat) :
    String :=
  String.intercalate "\n"
    (((index.insertionSort (fun a b => score query b ≤ score query a)).take k).map
      (fun c => c.text))

end Swlwi.Model

/-- C6: for every query and every top-k bound, the `Retriever` model run
against an empty vector index returns the empty context rather than
raising an error. -/
theorem retriever_empty_index (query : String) (k : Nat) :
    retrieverRun query [] k = "" := by
  simp [retrieverRun, List.insertionSort, String.intercalate]

/-- C7: the `ExtractArticleContent` model is idempotent — re-running it on
an article carrying the same HTML yields the same Markdown content, and
running it twice equals running it once. -/
theorem extractArticleContent_idempotent (a b : Article)
    (hhtml : a.html = b.html) :
    (extractArticleContentRun a).markdown = (extractArticleContentRun b).markdown ∧
    extractArticleContentRun (extractArticleContentRun a) =
      extractArticleContentRun a := by
  constructor
  · simp [extractArticleContentRun, hhtml]
  · simp [extractArticleContentRun]

/-- Witness for C7 at two concrete articles sharing the same HTML. -/
theorem extractArticleContent_idempotent_witness :
    (⟨"https://a.example", "A", "s", some "<p>Hi</p>", none⟩ : Article).html =
      (⟨"https://b.example", "B", "t", some "<p>Hi</p>", some "old"⟩ : Article).html ∧
    (extractArticleContentRun
        ⟨"https://a.example", "A", "s", some "<p>Hi</p>", none⟩).markdown =
      (extractArticleContentRun
        ⟨"https://b.example", "B", "t", some "<p>Hi</p>", some "old"⟩).markdown :=
  ⟨rfl, (extractArticleContent_idempotent
      ⟨"https://a.example", "A", "s", some "<p>Hi</p>", none⟩
      ⟨"https://b.example", "B", "t", some "<p>Hi</p>", some "old"⟩ rfl).1⟩

/-- C5: for every document text and every positive chunk size, the
`DocumentSplitter` model is deterministic (equal inputs give equal chunk
sequences), every emitted chunk has length at most `chunk_size`, and the
concatenation of the chunks reconstructs the original text exactly. -/
theorem documentSplitter_chunks (text other : List Char) (chunk_size : Nat)
    (hcs : 0 < chunk_size) (hdet : text = other) :
    splitChunks chunk_size text = splitChunks chunk_size other ∧
    (∀ chunk ∈ splitChunks chunk_size text, chunk.length ≤ chunk_size) ∧
    (splitChunks chunk_size text).flatten = text := by
  exact ⟨by rw [hdet], splitChunks_length_le chunk_size hcs text,
    splitChunks_join chunk_size text⟩

/-- Witness for C5 at a concrete document and chunk size 4. -/
theorem documentSplitter_chunks_witness :
    0 < 4 ∧ ("hello world".toList = "hello world".toList) ∧
    (splitChunks 4 "hello world".toList = splitChunks 4 "hello world".toList ∧
      (∀ chunk ∈ splitChunks 4 "hello world".toList, chunk.length ≤ 4) ∧
      (splitChunks 4 "hello world".toList).flatten = "hello world".toList) :=
  ⟨by decide, rfl,
    documentSplitter_chunks "hello world".toList "hello world".toList 4
      (by decide) rfl⟩

/-- Witness for C3 at a concrete issue already present in the store, with
`force_all` false. -/
theorem skipExistingIssues_dedup_witness :
    (skipExistingIssuesRun ⟨"https://softwareleadweekly.com/issues/1", "Issue 1"⟩
        ["https://softwareleadweekly.com/issues/1"] false = [] ↔
      false = false ∧
        (["https://softwareleadweekly.com/issues/1"].contains
          (⟨"https://softwareleadweekly.com/issues/1", "Issue 1"⟩ : Issue).url) = true) ∧
    (skipExistingIssuesRun ⟨"https://softwareleadweekly.com/issues/1", "Issue 1"⟩
        ["https://softwareleadweekly.com/issues/1"] false = [] ∨
      skipExistingIssuesRun ⟨"https://softwareleadweekly.com/issues/1", "Issue 1"⟩
        ["https://softwareleadweekly.com/issues/1"] false =
        [⟨"https://softwareleadweekly.com/issues/1", "Issue 1"⟩]) ∧
    (false = true →
      skipExistingIssuesRun ⟨"https://softwareleadweekly.com/issues/1", "Issue 1"⟩
        ["https://softwareleadweekly.com/issues/1"] false =
        [⟨"https://softwareleadweekly.com/issues/1", "Issue 1"⟩]) :=
  skipExistingIssues_dedup ⟨"https://softwareleadweekly.com/issues/1", "Issue 1"⟩
    ["https://softwareleadweekly.com/issues/1"] false

/-- Witness for C4 at a concrete two-issue page with limit 1. -/
theorem listIssues_limit_witness :
    (∃ rest, listIssuesRun
        [⟨"https://softwareleadweekly.com/issues/1", "Issue 1"⟩,
         ⟨"https://softwareleadweekly.com/issues/2", "Issue 2"⟩] (some 1) ++ rest =
      [⟨"https://softwareleadweekly.com/issues/1", "Issue 1"⟩,
       ⟨"https://softwareleadweekly.com/issues/2", "Issue 2"⟩]) ∧
    (∀ n, (some 1 : Option Nat) = some n → 0 < n →
      (listIssuesRun
        [⟨"https://softwareleadweekly.com/issues/1", "Issue 1"⟩,
         ⟨"https://softwareleadweekly.com/issues/2", "Issue 2"⟩] (some 1)).length ≤ n) ∧
    (((some 1 : Option Nat) = none ∨ (some 1 : Option Nat) = some 0) →
      listIssuesRun
        [⟨"https://softwareleadweekly.com/issues/1", "Issue 1"⟩,
         ⟨"https://softwareleadweekly.com/issues/2", "Issue 2"⟩] (some 1) =
      [⟨"https://softwareleadweekly.com/issues/1", "Issue 1"⟩,
       ⟨"https://softwareleadweekly.com/issues/2", "Issue 2"⟩]) :=
  listIssues_limit
    [⟨"https://softwareleadweekly.com/issues/1", "Issue 1"⟩,
     ⟨"https://softwareleadweekly.com/issues/2", "Issue 2"⟩] (some 1)
